import Mathlib

/-!
Verification of the autoAce repository (src/appy.py, src/check_sources.py).

The Python code is shallowly embedded: pure functions become Lean functions,
external effects (ffprobe, docker, HTTP, the filesystem) become explicit
oracle parameters, Python exceptions become `Except` values, and Python
`int`/`str` become `Int`/`String`.
-/

/-- Model of one entry of the `sources` list: a dictionary
`{"source": url, "valid": flag}` as used throughout `appy.py` and
`check_sources.py`. -/
structure Fuente where
  source : String
  valid : Bool
deriving DecidableEq, Repr

/-- Default entry used only as the out-of-range default of `List.getD`. -/
def fuenteNula : Fuente := { source := "", valid := false }

/-- Model of the `EventoConfig` dataclass of `appy.py` (fields in source
order).  Python `int` fields are `Int`, `str` fields are `String`. -/
structure EventoConfig where
  nombre : String
  titulo : String
  puerto : Int
  tracker : String
  sources : List Fuente
  host : String
  bitrate : Int
  token : String
  content_id : String := ""
  docker_active : String := "False"
deriving DecidableEq, Repr

/-- ASCII whitespace stripped by Python `str.strip()` (the model omits the
rarer Unicode space characters). -/
def esEspacio (c : Char) : Bool :=
  c == ' ' || c == '\t' || c == '\n' || c == '\r' || c == '\x0b' || c == '\x0c'

/-- Model of Python `str.strip()`: drop leading and trailing whitespace. -/
def recortar (s : String) : String :=
  String.mk (((s.toList.dropWhile esEspacio).reverse.dropWhile esEspacio).reverse)

/-- Characters accepted by the regex class `[a-zA-Z0-9]` (ASCII letters and
digits, as in the Python regexes of `appy.py`). -/
def esAlfanum (c : Char) : Bool := c.isAlpha || c.isDigit

/-- Full match of the regex `^[a-zA-Z0-9_-]+$` against a character list
(without the trailing-newline allowance of Python `$`). -/
def coincideNombreSimple (cs : List Char) : Bool :=
  !cs.isEmpty && cs.all (fun c => esAlfanum c || c == '_' || c == '-')

/-- Python `re.match` with a pattern anchored by `$`: the `$` also matches
just before one trailing newline.  `conDolarPython p cs` is true when `p`
matches `cs` itself or `cs` minus a single final newline. -/
def conDolarPython (p : List Char → Bool) (cs : List Char) : Bool :=
  p cs ||
    (match cs.getLast? with
     | some c => c == '\n' && p cs.dropLast
     | none => false)

/-- Model of `re.match(r'^[a-zA-Z0-9_-]+$', nombre)` truthiness. -/
def coincideNombre (s : String) : Bool := conDolarPython coincideNombreSimple s.toList

/-- One label of the domain regex of `_es_dominio_valido`:
`[a-zA-Z0-9]([a-zA-Z0-9-]{0,61}[a-zA-Z0-9])?` — nonempty, at most 63 chars,
alphanumeric at both ends, alphanumerics and hyphens inside. -/
def etiquetaValida (l : List Char) : Bool :=
  !l.isEmpty && l.length ≤ 63 &&
    (match l.head? with | some c => esAlfanum c | none => false) &&
    (match l.getLast? with | some c => esAlfanum c | none => false) &&
    l.all (fun c => esAlfanum c || c == '-')

/-- Split a character list on a separator, keeping empty pieces (model of
Python `str.split(sep)`; always returns at least one piece). -/
def partirEn (sep : Char) : List Char → List (List Char)
  | [] => [[]]
  | c :: r =>
    let ps := partirEn sep r
    if c = sep then [] :: ps
    else
      match ps with
      | [] => [[c]]
      | p :: resto => (c :: p) :: resto

/-- Full match of the domain regex of `_es_dominio_valido` (dot-separated
valid labels; the empty string has one empty label and fails). -/
def dominioSimple (cs : List Char) : Bool :=
  (partirEn '.' cs).all etiquetaValida

/-- Model of `EventoConfig._es_dominio_valido` (the `re.match` call,
including the trailing-newline quirk of `$`). -/
def _es_dominio_valido (s : String) : Bool := conDolarPython dominioSimple s.toList

/-- Numeric value of a decimal digit string. -/
def natDeDigitos (l : List Char) : Nat := l.foldl (fun a c => a * 10 + (c.toNat - 48)) 0

/-- One IPv4 octet as accepted by `ipaddress.IPv4Address`: 1–3 decimal
digits, no leading zero, value at most 255. -/
def octetoValido (l : List Char) : Bool :=
  !l.isEmpty && l.length ≤ 3 && l.all Char.isDigit &&
    (match l with
     | '0' :: _ :: _ => false
     | _ => true) &&
    natDeDigitos l ≤ 255

/-- Model of `ipaddress.IPv4Address` parsing: exactly four valid octets
separated by dots. -/
def esIPv4 (s : String) : Bool :=
  let partes := partirEn '.' s.toList
  partes.length == 4 && partes.all octetoValido

/-- Hexadecimal value of a character, as accepted by JSON `\uXXXX` escapes
and by IPv6 hextets. -/
def valHex (c : Char) : Option Nat :=
  if c = '0' then some 0 else if c = '1' then some 1
  else if c = '2' then some 2 else if c = '3' then some 3
  else if c = '4' then some 4 else if c = '5' then some 5
  else if c = '6' then some 6 else if c = '7' then some 7
  else if c = '8' then some 8 else if c = '9' then some 9
  else if c = 'a' then some 10 else if c = 'b' then some 11
  else if c = 'c' then some 12 else if c = 'd' then some 13
  else if c = 'e' then some 14 else if c = 'f' then some 15
  else if c = 'A' then some 10 else if c = 'B' then some 11
  else if c = 'C' then some 12 else if c = 'D' then some 13
  else if c = 'E' then some 14 else if c = 'F' then some 15
  else none

/-- One IPv6 hextet as accepted by `ipaddress.IPv6Address`: 1–4 hex
digits. -/
def hextetValido (l : List Char) : Bool :=
  !l.isEmpty && l.length ≤ 4 && l.all (fun c => (valHex c).isSome)

/-- Expansion of a trailing embedded IPv4 address into two hextets, as done
by `IPv6Address._ip_int_from_string`; `none` models a parse failure. -/
def expandeIPv4 (parts : List (List Char)) : Option (List (List Char)) :=
  match parts.getLast? with
  | none => none
  | some ult =>
    if ult.contains ('.') then
      if esIPv4 (String.mk ult) then some (parts.dropLast ++ [[('0')], [('0')]]) else none
    else some parts

/-- Validity of a colon-split IPv6 address (after IPv4 expansion), following
`IPv6Address._ip_int_from_string`: at most one interior empty piece (the
`::`), a leading or trailing colon only as part of `::`, at least one
hextet compressed, and every kept piece a valid hextet. -/
def esIPv6Partes (parts : List (List Char)) : Bool :=
  if parts.length > 9 then false
  else
    let n := parts.length
    let interiores := (List.range n).filter
      (fun i => decide (1 ≤ i) && decide (i + 1 < n) && (parts.getD i [('x')]).isEmpty)
    match interiores with
    | [] => n == 8 && parts.all hextetValido
    | [i] =>
      let cabezaVacia := (parts.getD 0 [('x')]).isEmpty
      let colaVacia := (parts.getD (n - 1) [('x')]).isEmpty
      let hi := if cabezaVacia then i - 1 else i
      let lo := if colaVacia then n - i - 2 else n - i - 1
      (!cabezaVacia || i == 1) &&
      (!colaVacia || n - i - 1 == 1) &&
      hi + lo ≤ 7 &&
      ((List.range hi).all (fun j => hextetValido (parts.getD j [('x')]))) &&
      ((List.range lo).all (fun j => hextetValido (parts.getD (n - 1 - j) [('x')])))
    | _ => false

/-- Split at the first occurrence of a separator (model of Python
`str.partition`); `none` when the separator is absent. -/
def partirEnPrimero (sep : Char) : List Char → Option (List Char × List Char)
  | [] => none
  | c :: r =>
    if c = sep then some ([], r)
    else
      match partirEnPrimero sep r with
      | none => none
      | some (a, b) => some (c :: a, b)

/-- Model of `ipaddress.IPv6Address` parsing: an optional nonempty `%scope`
suffix, then at least three colon-separated pieces with optional trailing
IPv4. -/
def esIPv6 (s : String) : Bool :=
  let core := fun (cs : List Char) =>
    let parts := partirEn ':' cs
    if parts.length < 3 then false
    else
      match expandeIPv4 parts with
      | none => false
      | some parts2 => esIPv6Partes parts2
  match partirEnPrimero '%' s.toList with
  | none => core s.toList
  | some (addr, ambito) => !ambito.isEmpty && !ambito.contains ('%') && core addr

/-- Model of `EventoConfig._es_ip_valida`: `ipaddress.ip_address` succeeds
on IPv4 or IPv6 input. -/
def _es_ip_valida (s : String) : Bool := esIPv4 s || esIPv6 s

/-- Validation messages of `EventoConfig.validar`, verbatim from the
source. -/
def msgNombre : String := "Nombre inválido: use solo letras, números, guiones y guiones bajos"

/-- Port-range violation message of `validar`. -/
def msgPuerto : String := "Puerto inválido: debe estar entre 1024 y 65535"

/-- Host violation message of `validar`. -/
def msgHost : String := "Host inválido: debe ser una IP válida o un nombre de dominio"

/-- Bitrate violation message of `validar`. -/
def msgBitrate : String := "Bitrate inválido"

/-- Empty-title violation message of `validar`. -/
def msgTitulo : String := "El título no puede estar vacío"

/-- Missing-source violation message of `validar`. -/
def msgFuentes : String := "Debe ingresar al menos una fuente"

/-- Model of `EventoConfig.validar`: each rule appends its message
independently, in source order. -/
def EventoConfig.validar (config : EventoConfig) : List String :=
  (if config.nombre == "" || !coincideNombre config.nombre then [msgNombre] else []) ++
  (if ¬(1024 ≤ config.puerto ∧ config.puerto ≤ 65535) then [msgPuerto] else []) ++
  (if !_es_ip_valida config.host && !_es_dominio_valido config.host then [msgHost] else []) ++
  (if ¬(0 ≤ config.bitrate ∧ config.bitrate ≤ 10000000) then [msgBitrate] else []) ++
  (if recortar config.titulo == "" then [msgTitulo] else []) ++
  (if config.sources.isEmpty || config.sources.all (fun s => recortar s.source == "") then [msgFuentes] else [])

/-- Model of the per-event marking loop of `check_sources`
(`src/check_sources.py:60-77`): `validFound` carries the `valid_found`
flag; `probe` is the `is_valid_source` oracle (an external `ffprobe`
call), applied to the stripped URL exactly as the code does. -/
def marcarFuentes (probe : String → Bool) (validFound : Bool) : List Fuente → List Fuente
  | [] => []
  | f :: resto =>
    if validFound then { f with valid := false } :: marcarFuentes probe true resto
    else if recortar f.source = "" then { f with valid := false } :: marcarFuentes probe false resto
    else if probe (recortar f.source) then { f with valid := true } :: marcarFuentes probe true resto
    else { f with valid := false } :: marcarFuentes probe false resto

/-- Model of `check_sources` (`src/check_sources.py:55-80`) on the decoded
record set: every record keeps its other columns and gets its `sources`
remarked by the per-event loop; records with an empty `sources` list are
skipped (`continue`). -/
def fuenteActiva (f : Fuente) : Bool := f.valid

/-- Error message of `_construir_comando_docker`. -/
def mensajeSinFuente : String := "No se encontró una fuente válida para el evento"

/-- TCP port-mapping token `"<port>:<port>/tcp"` emitted by the command
builder. -/
def tokenTcp (p : Int) : String := toString p ++ (":") ++ toString p ++ ("/tcp")

/-- UDP port-mapping token `"<port>:<port>/udp"` emitted by the command
builder. -/
def tokenUdp (p : Int) : String := toString p ++ (":") ++ toString p ++ ("/udp")

/-- Argument list of `docker run` built by `_construir_comando_docker`
(`src/appy.py:271-298`), given the selected source URL. -/
def comandoDocker (config : EventoConfig) (src : String) : List String :=
  [("docker"), ("run"), ("-d"), ("--restart"), ("unless-stopped"),
   ("--name"), config.nombre,
   ("-p"), tokenTcp config.puerto,
   ("-p"), tokenUdp config.puerto,
   ("-v"), ("acestreamengine_") ++ config.nombre ++ (":/data"),
   ("lob666/acestreamengine"),
   ("--port"), toString config.puerto,
   ("--tracker"), config.tracker,
   ("--stream-source"),
   ("--name"), config.nombre,
   ("--title"), config.titulo,
   ("--publish-dir"), ("/data"),
   ("--cache-dir"), ("/data"),
   ("--skip-internal-tracker"),
   ("--quality"), ("HD"),
   ("--category"), ("amateur"),
   ("--service-access-token"), config.token,
   ("--service-remote-access"),
   ("--log-debug"), ("1"),
   ("--max-peers"), ("6"),
   ("--max-upload-slots"), ("6"),
   ("--source-read-timeout"), ("15"),
   ("--source-reconnect-interval"), ("1"),
   ("--host"), config.host,
   ("--source"), src,
   ("--bitrate"), toString config.bitrate]

/-- Model of `EventoManager._construir_comando_docker`
(`src/appy.py:262-298`): picks the first `valid == True` entry; raising
`ValueError` becomes `Except.error`.  Note the Python guard
`if not valid_source` also fires when the selected URL is the empty
string, because the empty string is falsy. -/
def _construir_comando_docker (config : EventoConfig) : Except String (List String) :=
  match config.sources.find? fuenteActiva with
  | none => Except.error mensajeSinFuente
  | some f =>
    if f.source = "" then Except.error mensajeSinFuente
    else Except.ok (comandoDocker config f.source)

/-- JSON body returned by the monitor endpoint, as consumed by
`obtener_monitor`: the optional `content_id` and `download_hash` keys
(Python falsiness of a missing key is `none`, of an empty string is
`some ""`). -/
structure MonitorJson where
  content_id : Option String
  download_hash : Option String
deriving DecidableEq, Repr

/-- Outcome of one `requests.get` call inside `obtener_monitor`: a raised
`RequestException`, or a response with a status code and a JSON body
(`none` body models a JSON decode error). -/
inductive RespuestaMonitor where
  | excepcion
  | respuesta (status : Nat) (cuerpo : Option MonitorJson)
deriving DecidableEq, Repr

/-- Result of one polling attempt of `obtener_monitor`
(`src/appy.py:307-336`): `some (content_id, download_hash)` when the
attempt returns, `none` when the loop continues.  The code continues on a
transport error, a non-200 status, a JSON decode error, and a missing,
empty or sentinel `content_id`. -/
def esperaExitosa (r : RespuestaMonitor) : Option (String × Option String) :=
  match r with
  | RespuestaMonitor.excepcion => none
  | RespuestaMonitor.respuesta status cuerpo =>
    if status = 200 then
      match cuerpo with
      | none => none
      | some m =>
        match m.content_id with
        | none => none
        | some cid =>
          if cid ≠ "" ∧ cid ≠ ("No encontrado") then some (cid, m.download_hash)
          else none
    else none

/-- Timeout message of `obtener_monitor`. -/
def mensajeMonitor : String := "No se pudo obtener el monitor después de varios intentos"

/-- Model of the retry loop of `obtener_monitor` (`src/appy.py:307-338`).
`endpoint j` is the outcome of the `j`-th HTTP call (counted from the
start of the loop); the second component counts the HTTP calls made.
Sleeps are not modelled. -/
def obtenerMonitorBucle (endpoint : Nat → RespuestaMonitor) :
    Nat → Nat → Except String (String × Option String) × Nat
  | 0, _ => (Except.error mensajeMonitor, 0)
  | n + 1, i =>
    match esperaExitosa (endpoint i) with
    | some r => (Except.ok r, 1)
    | none =>
      let p := obtenerMonitorBucle endpoint n (i + 1)
      (p.1, p.2 + 1)

/-- Model of `EventoManager.obtener_monitor` with its attempt budget
(`intentos`, default 10 at the call site). -/
def obtener_monitor (endpoint : Nat → RespuestaMonitor) (intentos : Nat) :
    Except String (String × Option String) × Nat :=
  obtenerMonitorBucle endpoint intentos 0

/-- One directory entry of the volume directory, as seen by
`Path.iterdir` inside `limpiar_archivos_temporales`. -/
structure Archivo where
  nombre : String
  esFichero : Bool
deriving DecidableEq, Repr

/-- Filesystem and platform oracle for `limpiar_archivos_temporales`:
the reported platform, directory existence, directory listing, and
whether `unlink` succeeds on a given entry. -/
structure SistemaArchivos where
  plataforma : String
  existe : String → Bool
  lista : String → List Archivo
  borraBien : String → Bool

/-- Platform-dependent volume directory used by
`limpiar_archivos_temporales` (`src/appy.py:233-236`). -/
def rutaBase (plataforma vol : String) : String :=
  if plataforma == ("Windows") then
    ("\\\\wsl.localhost\\docker-desktop\\mnt\\docker-desktop-disk\\data\\docker\\volumes\\") ++ vol ++ ("\\_data")
  else ("/var/lib/docker/volumes/") ++ vol ++ ("/_data")

/-- Model of `pathlib.Path.suffix` on a single path component: the part
from the last dot on, unless that dot is the first or last character. -/
def pathSuffix (nombre : String) : String :=
  let cs := nombre.toList
  match cs.reverse.findIdx? (fun c => c == '.') with
  | none => ""
  | some j =>
    let i := cs.length - 1 - j
    if 0 < i ∧ i < cs.length - 1 then String.mk (cs.drop i) else ""

/-- Extensions preserved by the cleanup (`extensiones_permitidas`). -/
def extensionesPermitidas : List String := [(".acelive"), (".sauth")]

/-- Deletion loop of `limpiar_archivos_temporales` (`src/appy.py:247-254`):
returns the count of successful deletions together with the list of
entries actually unlinked (the side-effect trace; Python returns only the
count).  A failed `unlink` is logged and skipped, never fatal. -/
def bucleBorrado (fs : SistemaArchivos) : List Archivo → Nat × List Archivo
  | [] => (0, [])
  | a :: resto =>
    let p := bucleBorrado fs resto
    if a.esFichero && !(extensionesPermitidas.contains (pathSuffix a.nombre)) then
      if fs.borraBien a.nombre then (p.1 + 1, a :: p.2) else p
    else p

/-- Model of `EventoManager.limpiar_archivos_temporales`
(`src/appy.py:230-260`): unsupported platform or missing directory is a
no-op returning zero; otherwise every regular file whose suffix is outside
the allow-list is unlinked best-effort.  The function is total — the
Python-side catch-all `except` has nothing left to catch in the model. -/
def limpiar_archivos_temporales (fs : SistemaArchivos) (nombre_volumen : String) :
    Nat × List Archivo :=
  if fs.plataforma == ("Windows") || fs.plataforma == ("Linux") then
    let base := rutaBase fs.plataforma nombre_volumen
    if fs.existe base then bucleBorrado fs (fs.lista base)
    else (0, [])
  else (0, [])

/-- Hexadecimal digit characters used by `json.dumps` in `\uXXXX` escapes
(lowercase, as CPython emits). -/
def digitoHex (n : Nat) : Char :=
  [('0'), ('1'), ('2'), ('3'), ('4'), ('5'), ('6'), ('7'), ('8'), ('9'),
   ('a'), ('b'), ('c'), ('d'), ('e'), ('f')].getD n '0'

/-- Four-digit hexadecimal rendering of a value below 65536, as in a JSON
`\uXXXX` escape. -/
def hex4 (n : Nat) : List Char :=
  [digitoHex (n / 4096 % 16), digitoHex (n / 256 % 16), digitoHex (n / 16 % 16), digitoHex (n % 16)]

/-- Encoding of one character by `json.dumps` with its default
`ensure_ascii=True`: the short escapes of the C escape table, `\u00xx` for
other control characters, the character itself for printable ASCII, and
`\uXXXX` (a surrogate pair beyond the BMP) for everything non-ASCII. -/
def encChar (c : Char) : List Char :=
  let v := c.toNat
  if c = '"' then [('\\'), ('"')]
  else if c = '\\' then [('\\'), ('\\')]
  else if c = '\n' then [('\\'), ('n')]
  else if c = '\r' then [('\\'), ('r')]
  else if c = '\t' then [('\\'), ('t')]
  else if c = '\x08' then [('\\'), ('b')]
  else if c = '\x0C' then [('\\'), ('f')]
  else if v < 32 ∨ 126 < v then
    if v < 65536 then ('\\') :: ('u') :: hex4 v
    else
      (('\\') :: ('u') :: hex4 (55296 + (v - 65536) / 1024)) ++
        (('\\') :: ('u') :: hex4 (56320 + (v - 65536) % 1024))
  else [c]

/-- JSON encoding of the characters of a string body (no surrounding
quotes). -/
def encString : List Char → List Char
  | [] => []
  | c :: r => encChar c ++ encString r

/-- JSON string literal for `s`: quote, escaped body, quote. -/
def citar (s : String) : List Char := ('"') :: encString s.toList ++ [('"')]

/-- Model of `json.dumps` on one `{"source": ..., "valid": ...}` dictionary
(default separators `", "` and `": "`, insertion key order). -/
def dumpsFuente (f : Fuente) : List Char :=
  ("\x7b\"source\": ").toList ++ citar f.source ++ (", \"valid\": ").toList ++
    (if f.valid then ("true").toList else ("false").toList) ++ [('\x7d')]

/-- Tail of the JSON array rendering: `", "`-joined remaining elements. -/
def dumpsResto : List Fuente → List Char
  | [] => []
  | f :: resto => (", ").toList ++ dumpsFuente f ++ dumpsResto resto

/-- Model of `json.dumps` on the `sources` list (a JSON array). -/
def dumpsSources (l : List Fuente) : List Char :=
  match l with
  | [] => [('['), (']')]
  | f :: resto => ('[') :: (dumpsFuente f ++ dumpsResto resto) ++ [(']')]

/-- String-level model of `json.dumps(config.sources)` as used by
`agregar_evento` and `actualizar_evento`. -/
def json_dumps_sources (l : List Fuente) : String := String.mk (dumpsSources l)

/-- Reading of four hexadecimal digits by the JSON string decoder. -/
def leerHex4 : List Char → Option (Nat × List Char)
  | a :: b :: c :: d :: r =>
    match valHex a, valHex b, valHex c, valHex d with
    | some x, some y, some z, some w => some (x * 4096 + y * 256 + z * 16 + w, r)
    | _, _, _, _ => none
  | _ => none

/-- Decoding of a `\uXXXX` escape (after the `\u` prefix) by `json.loads`,
including surrogate pairs; a lone low surrogate (undecodable into a Lean
`Char`) fails. -/
def leerEscapeU (l : List Char) : Option (Char × List Char) :=
  match leerHex4 l with
  | none => none
  | some (n, r1) =>
    if n < 55296 ∨ 57344 ≤ n then some (Char.ofNat n, r1)
    else if n < 56320 then
      match r1 with
      | c1 :: c2 :: r2 =>
        if c1 = '\\' ∧ c2 = 'u' then
          match leerHex4 r2 with
          | none => none
          | some (m, r3) =>
            if 56320 ≤ m ∧ m < 57344 then
              some (Char.ofNat (65536 + (n - 55296) * 1024 + (m - 56320)), r3)
            else none
        else none
      | _ => none
    else none

/-- Decoding of one backslash escape by `json.loads`. -/
def leerEscape (l : List Char) : Option (Char × List Char) :=
  match l with
  | [] => none
  | c :: r =>
    if c = 'n' then some (('\n'), r)
    else if c = 't' then some (('\t'), r)
    else if c = 'r' then some (('\r'), r)
    else if c = 'b' then some (('\x08'), r)
    else if c = 'f' then some (('\x0C'), r)
    else if c = '"' then some (('"'), r)
    else if c = '\\' then some (('\\'), r)
    else if c = '/' then some (('/'), r)
    else if c = 'u' then leerEscapeU r
    else none

/-- Decoding of a JSON string body up to its closing quote; `fuel` bounds
the recursion (one unit per produced character suffices). -/
def leerCuerpoCadena : Nat → List Char → Option (List Char × List Char)
  | 0, _ => none
  | _ + 1, [] => none
  | fuel + 1, c :: r =>
    if c = '"' then some ([], r)
    else if c = '\\' then
      match leerEscape r with
      | none => none
      | some (d, r1) =>
        match leerCuerpoCadena fuel r1 with
        | none => none
        | some (s, r2) => some (d :: s, r2)
    else
      match leerCuerpoCadena fuel r with
      | none => none
      | some (s, r2) => some (c :: s, r2)

/-- Decoding of a quoted JSON string literal. -/
def leerCadena (l : List Char) : Option (List Char × List Char) :=
  match l with
  | ('"') :: r => leerCuerpoCadena (r.length + 1) r
  | _ => none

/-- Removal of an expected literal prefix from the input. -/
def quitarLiteral : List Char → List Char → Option (List Char)
  | [], l => some l
  | p :: ps, c :: cs => if c = p then quitarLiteral ps cs else none
  | _ :: _, [] => none

/-- Decoding of a JSON boolean literal. -/
def leerBool (l : List Char) : Option (Bool × List Char) :=
  match quitarLiteral (("true").toList) l with
  | some r => some (true, r)
  | none =>
    match quitarLiteral (("false").toList) l with
    | some r => some (false, r)
    | none => none

/-- Decoding of one `{"source": ..., "valid": ...}` object in the exact
shape `json.dumps` produces for it. -/
def leerFuente (l : List Char) : Option (Fuente × List Char) :=
  match quitarLiteral (("\x7b\"source\": ").toList) l with
  | none => none
  | some l1 =>
    match leerCadena l1 with
    | none => none
    | some (s, l2) =>
      match quitarLiteral ((", \"valid\": ").toList) l2 with
      | none => none
      | some l3 =>
        match leerBool l3 with
        | none => none
        | some (b, l4) =>
          match l4 with
          | ('\x7d') :: l5 => some ({ source := String.mk s, valid := b }, l5)
          | _ => none

/-- Decoding of the remaining elements of the JSON array (after the first)
up to the closing bracket; `fuel` bounds the recursion. -/
def leerFuentes : Nat → List Char → Option (List Fuente × List Char)
  | 0, _ => none
  | fuel + 1, l =>
    match l with
    | [] => none
    | c :: r =>
      if c = ']' then some ([], r)
      else
        match quitarLiteral ((", ").toList) (c :: r) with
        | none => none
        | some l1 =>
          match leerFuente l1 with
          | none => none
          | some (f, l2) =>
            match leerFuentes fuel l2 with
            | none => none
            | some (fs, r2) => some (f :: fs, r2)

/-- Model of `json.loads` on the `sources` column, restricted to the array
shape `json.dumps` produces for a list of `{"source", "valid"}`
dictionaries (the only shape the repository writes); any other input
decodes to `none`, which the readers turn into an empty list. -/
def json_loads_sources (s : String) : Option (List Fuente) :=
  match s.data with
  | [] => none
  | c :: r =>
    if c = '[' then
      match r with
      | [] => none
      | d :: r2 =>
        if d = ']' then (if r2 = [] then some [] else none)
        else
          match leerFuente (d :: r2) with
          | none => none
          | some (f, r1) =>
            match leerFuentes (r1.length + 1) r1 with
            | none => none
            | some (fs, r3) => if r3 = [] then some (f :: fs) else none
    else none

/-- One raw CSV row of `eventos.csv`, in header order
(`EventoManager.cabeceras`); every cell is a string, with the `sources`
cell holding the JSON-encoded list. -/
structure Fila where
  name : String
  title : String
  port : String
  service_access_token : String
  tracker : String
  sources : String
  host : String
  bitrate : String
  content_id : String
  docker_active : String
deriving DecidableEq, Repr

/-- One decoded event record as produced by `listar_eventos` (the CSV row
with its `sources` cell decoded from JSON). -/
structure Evento where
  name : String
  title : String
  port : String
  service_access_token : String
  tracker : String
  sources : List Fuente
  host : String
  bitrate : String
  content_id : String
  docker_active : String
deriving DecidableEq, Repr

/-- Decoding of one row by `listar_eventos` (`src/appy.py:92-101`): an
empty `sources` cell or a JSON decode failure yields an empty list. -/
def eventoDeFila (f : Fila) : Evento :=
  { name := f.name, title := f.title, port := f.port,
    service_access_token := f.service_access_token, tracker := f.tracker,
    sources :=
      if f.sources = "" then []
      else
        match json_loads_sources f.sources with
        | some l => l
        | none => [],
    host := f.host, bitrate := f.bitrate, content_id := f.content_id,
    docker_active := f.docker_active }

/-- Model of `EventoManager.listar_eventos` (`src/appy.py:88-102`) on the
stored rows. -/
def listar_eventos (filas : List Fila) : List Evento := filas.map eventoDeFila

/-- Row appended by `agregar_evento` (`src/appy.py:104-118`): numeric
fields via `str(...)`, the sources via `json.dumps`. -/
def filaDe (config : EventoConfig) : Fila :=
  { name := config.nombre, title := config.titulo, port := toString config.puerto,
    service_access_token := config.token, tracker := config.tracker,
    sources := json_dumps_sources config.sources, host := config.host,
    bitrate := toString config.bitrate, content_id := config.content_id,
    docker_active := config.docker_active }

/-- Model of `EventoManager.agregar_evento`: append one encoded row. -/
def agregar_evento (filas : List Fila) (config : EventoConfig) : List Fila :=
  filas ++ [filaDe config]

/-- Fields written into the first record whose `name` matches, by
`actualizar_evento` (`src/appy.py:123-135`). -/
def eventoActualizado (e : Evento) (config : EventoConfig) : Evento :=
  { e with
    title := config.titulo
    port := toString config.puerto
    service_access_token := config.token
    tracker := config.tracker
    sources := config.sources
    host := config.host
    bitrate := toString config.bitrate
    content_id := config.content_id
    docker_active := config.docker_active }

/-- Search-and-update loop of `actualizar_evento`: update the first record
with a matching name and stop (`break`); `none` when nothing matched. -/
def actualizarLista (config : EventoConfig) : List Evento → Option (List Evento)
  | [] => none
  | e :: resto =>
    if e.name = config.nombre then some (eventoActualizado e config :: resto)
    else (actualizarLista config resto).map (fun l => e :: l)

/-- Model of `EventoManager.actualizar_evento` (`src/appy.py:120-139`) at
the record level: raises (`Except.error`) when no record matches. -/
def actualizar_evento (eventos : List Evento) (config : EventoConfig) :
    Except String (List Evento) :=
  match actualizarLista config eventos with
  | some l => Except.ok l
  | none => Except.error ("Evento no encontrado para actualizar")

/-- Update of the first record satisfying a predicate; the list is returned
unchanged when nothing matches (the `for ... break` pattern of
`_actualizar_content_id` and `_actualizar_docker_active`). -/
def actualizarPrimero (p : Evento → Bool) (f : Evento → Evento) : List Evento → List Evento
  | [] => []
  | e :: resto => if p e then f e :: resto else e :: actualizarPrimero p f resto

/-- Model of `EventoManager._actualizar_content_id` (`src/appy.py:167-173`)
at the record level: it always rewrites the store and never signals a
missing record. -/
def _actualizar_content_id (eventos : List Evento) (nombre content_id : String) :
    Except String (List Evento) :=
  Except.ok (actualizarPrimero (fun e => e.name == nombre)
    (fun e => { e with content_id := content_id }) eventos)

/-- Model of `EventoManager._actualizar_docker_active`
(`src/appy.py:175-181`) at the record level: likewise never signals a
missing record. -/
def _actualizar_docker_active (eventos : List Evento) (nombre : String) (active : Bool) :
    Except String (List Evento) :=
  Except.ok (actualizarPrimero (fun e => e.name == nombre)
    (fun e => { e with docker_active := if active then ("True") else ("False") }) eventos)

/-- Model of the batch `check_sources` (`src/check_sources.py:55-80`) on
the decoded record set: each record's sources are remarked in place, all
other columns are copied, and a record with no sources is skipped. -/
def check_sources (probe : String → Bool) (eventos : List Evento) : List Evento :=
  eventos.map (fun ev =>
    if ev.sources.isEmpty then ev
    else { ev with sources := marcarFuentes probe false ev.sources })

/-- Sources list built by the `new_event` and `edit_event` handlers
(`src/appy.py:401` and `src/appy.py:442`): stripped nonempty form values,
each flagged `valid=False`. -/
def fuentesFormulario (fuentes : List String) : List Fuente :=
  (fuentes.filter (fun s => recortar s ≠ "")).map (fun s => { source := recortar s, valid := false })

/-- Oracle bundle for one run of `iniciar_docker_evento`: the outcome of
every external step (container reconciliation, `docker run`, container-id
lookup, the monitor endpoint, and the two store writes), plus the
filesystem seen by the volume cleanup. -/
structure Entorno where
  verificar : Except String Unit
  fs : SistemaArchivos
  ejecutar : List String → Except String Unit
  resolverContenedor : Except String String
  monitor : Nat → RespuestaMonitor
  guardarContentId : String → Except String Unit
  marcarActivo : Except String Unit

/-- Python `repr` of a list of plain strings, as interpolated by
`f"Errores de validación: {errores}"`. -/
def reprListaPy (l : List String) : String :=
  ("[") ++ String.intercalate (", ") (l.map (fun s => ("\x27") ++ s ++ ("\x27"))) ++ ("]")

/-- Early-return message of `iniciar_docker_evento` on validation
failure. -/
def mensajeValidacion (errores : List String) : String :=
  ("Errores de validación: ") ++ reprListaPy errores

/-- Success message of `iniciar_docker_evento`. -/
def mensajeExito (nombre content_id : String) : String :=
  ("Evento \x27") ++ nombre ++ ("\x27 iniciado correctamente con Content ID: ") ++ content_id

/-- Catch-all failure message of `iniciar_docker_evento`. -/
def mensajeFallo (nombre e : String) : String :=
  ("Error al iniciar evento ") ++ nombre ++ (": ") ++ e

/-- Body of the `try` block of `iniciar_docker_evento`
(`src/appy.py:347-374`) after the validation early return: reconcile,
clean the volume, build the command, run it, re-resolve the container id,
poll the monitor (10 attempts), persist `content_id`, persist the active
flag, and produce the success message. -/
def cuerpoArranque (env : Entorno) (config : EventoConfig) : Except String String := do
  let _ ← env.verificar
  let _archivos := limpiar_archivos_temporales env.fs (("acestreamengine_") ++ config.nombre)
  let comando ← _construir_comando_docker config
  let _ ← env.ejecutar comando
  let _contenedorId ← env.resolverContenedor
  let info ← (obtener_monitor env.monitor 10).1
  let content_id := info.1
  let _ ← env.guardarContentId content_id
  let _ ← env.marcarActivo
  Except.ok (mensajeExito config.nombre content_id)

/-- Model of `EventoManager.iniciar_docker_evento` (`src/appy.py:340-377`):
validation failures return early with the violation list; every other
failure is caught by the top-level `except` and rendered as a failure
string.  The function is total — it always returns a `String`. -/
def iniciar_docker_evento (env : Entorno) (config : EventoConfig) : String :=
  let errores := config.validar
  if errores.isEmpty then
    match cuerpoArranque env config with
    | Except.ok mensaje => mensaje
    | Except.error e => mensajeFallo config.nombre e
  else mensajeValidacion errores
theorem recortarVacio : recortar ("") = "" := rfl

theorem forall_lt_succ_shift (P : Nat → Prop) (n : Nat) :
    (∀ k, k < n + 1 → P k) ↔ P 0 ∧ ∀ k, k < n → P (k + 1) := by
  constructor
  · intro h
    exact ⟨h 0 (Nat.succ_pos n), fun k hk => h (k + 1) (Nat.succ_lt_succ hk)⟩
  · rintro ⟨h0, h⟩ k hk
    cases k with
    | zero => exact h0
    | succ k => exact h k (Nat.lt_of_succ_lt_succ hk)

theorem marcarFuentes_length (probe : String → Bool) (b : Bool) (l : List Fuente) :
    (marcarFuentes probe b l).length = l.length := by
  induction l generalizing b with
  | nil => rfl
  | cons f resto ih =>
    simp only [marcarFuentes]
    split_ifs <;> simp [ih]

theorem marcarFuentes_true_valid (probe : String → Bool) (l : List Fuente) (i : Nat) :
    ((marcarFuentes probe true l)[i]?.getD fuenteNula).valid = false := by
  induction l generalizing i with
  | nil => cases i <;> simp [marcarFuentes, fuenteNula]
  | cons f resto ih =>
    cases i with
    | zero => simp [marcarFuentes]
    | succ j => simpa [marcarFuentes] using ih j

theorem marcarFuentes_source (probe : String → Bool) (b : Bool) (l : List Fuente) (j : Nat) :
    ((marcarFuentes probe b l)[j]?.getD fuenteNula).source = (l[j]?.getD fuenteNula).source := by
  induction l generalizing b j with
  | nil => simp [marcarFuentes]
  | cons f resto ih =>
    cases j with
    | zero =>
      simp only [marcarFuentes]
      split_ifs <;> simp
    | succ j =>
      simp only [marcarFuentes]
      split_ifs <;> simpa using ih _ j

theorem marcarFuentes_false_spec (probe : String → Bool) (hp : probe ("") = false)
    (l : List Fuente) (i : Nat) :
    ((marcarFuentes probe false l)[i]?.getD fuenteNula).valid = true ↔
      (probe (recortar (l[i]?.getD fuenteNula).source) = true ∧
        ∀ j, j < i → probe (recortar (l[j]?.getD fuenteNula).source) = false) := by
  induction l generalizing i with
  | nil =>
    cases i <;> simp [marcarFuentes, fuenteNula, recortarVacio, hp]
  | cons f resto ih =>
    by_cases hv : recortar f.source = ""
    · cases i with
      | zero => simp [marcarFuentes, hv, hp]
      | succ i =>
        rw [forall_lt_succ_shift]
        simp [marcarFuentes, hv, hp, ih i]
    · by_cases hpr : probe (recortar f.source) = true
      · cases i with
        | zero => simp [marcarFuentes, hv, hpr]
        | succ i =>
          rw [forall_lt_succ_shift]
          simp [marcarFuentes, hv, hpr, marcarFuentes_true_valid]
      · cases i with
        | zero => simp [marcarFuentes, hv, hpr]
        | succ i =>
          rw [forall_lt_succ_shift]
          simp [marcarFuentes, hv, hpr, ih i]
/-- Probe used by the witness of claim C1: only the URL `"b"` probes
successfully. -/
def probePrueba : String → Bool := fun s => s == ("b")

/-- Sources used by the witness of claim C1: a failing URL, a URL that
probes successfully after stripping, and a later URL that would also probe
successfully. -/
def fuentesPrueba : List Fuente :=
  [{ source := "a", valid := true }, { source := " b ", valid := false },
   { source := "b", valid := true }, { source := "  ", valid := true }]

/-- C1: after the Source Validator marking loop runs on a sources sequence
(with a probe that fails on the empty URL, as `ffprobe` does), an entry is
`valid=true` exactly when it is the earliest entry whose stripped URL
probes successfully; hence at most one entry is valid, every entry after
it is invalid regardless of its own probe outcome, and if no entry probes
successfully all are invalid.  The length is preserved. -/
theorem claim_C1 (probe : String → Bool) (hp : probe ("") = false) (sources : List Fuente) :
    (marcarFuentes probe false sources).length = sources.length ∧
    ∀ i : Nat,
      ((marcarFuentes probe false sources).getD i fuenteNula).valid = true ↔
        (probe (recortar ((sources.getD i fuenteNula).source)) = true ∧
          ∀ j, j < i → probe (recortar ((sources.getD j fuenteNula).source)) = false) := by
  refine ⟨marcarFuentes_length probe false sources, fun i => ?_⟩
  simpa [List.getD_eq_getElem?_getD] using marcarFuentes_false_spec probe hp sources i

/-- Witness for C1 at a concrete probe and source list. -/
theorem claim_C1_testigo :
    probePrueba ("") = false ∧
    ((marcarFuentes probePrueba false fuentesPrueba).length = fuentesPrueba.length ∧
      ∀ i : Nat,
        ((marcarFuentes probePrueba false fuentesPrueba).getD i fuenteNula).valid = true ↔
          (probePrueba (recortar ((fuentesPrueba.getD i fuenteNula).source)) = true ∧
            ∀ j, j < i → probePrueba (recortar ((fuentesPrueba.getD j fuenteNula).source)) = false)) :=
  ⟨rfl, claim_C1 probePrueba rfl fuentesPrueba⟩

/-- Default record used only as the out-of-range default of `List.getD`. -/
def eventoNulo : Evento :=
  { name := "", title := "", port := "", service_access_token := "", tracker := "",
    sources := [], host := "", bitrate := "", content_id := "", docker_active := "" }

/-- C10: a Source Validator run only rewrites the `valid` flags inside each
record's sources: the record count, the per-record columns, and the
number, order and URL of each record's sources entries are all
preserved. -/
theorem claim_C10 (probe : String → Bool) (eventos : List Evento) :
    (check_sources probe eventos).length = eventos.length ∧
    ∀ i : Fin eventos.length,
      ((check_sources probe eventos).getD i.val eventoNulo).name = (eventos.get i).name ∧
      ((check_sources probe eventos).getD i.val eventoNulo).title = (eventos.get i).title ∧
      ((check_sources probe eventos).getD i.val eventoNulo).port = (eventos.get i).port ∧
      ((check_sources probe eventos).getD i.val eventoNulo).service_access_token
        = (eventos.get i).service_access_token ∧
      ((check_sources probe eventos).getD i.val eventoNulo).tracker = (eventos.get i).tracker ∧
      ((check_sources probe eventos).getD i.val eventoNulo).host = (eventos.get i).host ∧
      ((check_sources probe eventos).getD i.val eventoNulo).bitrate = (eventos.get i).bitrate ∧
      ((check_sources probe eventos).getD i.val eventoNulo).content_id = (eventos.get i).content_id ∧
      ((check_sources probe eventos).getD i.val eventoNulo).docker_active
        = (eventos.get i).docker_active ∧
      ((check_sources probe eventos).getD i.val eventoNulo).sources.length
        = (eventos.get i).sources.length ∧
      ∀ j : Nat,
        (((check_sources probe eventos).getD i.val eventoNulo).sources[j]?.getD fuenteNula).source
          = ((eventos.get i).sources[j]?.getD fuenteNula).source := by
  refine ⟨by simp [check_sources], fun i => ?_⟩
  have hg : (check_sources probe eventos).getD i.val eventoNulo
      = (fun ev => if ev.sources.isEmpty then ev
          else { ev with sources := marcarFuentes probe false ev.sources }) (eventos.get i) := by
    simp [check_sources, List.getD_eq_getElem?_getD, List.getElem?_map,
      List.getElem?_eq_getElem i.isLt]
  simp only [List.getD_eq_getElem?_getD] at hg
  simp only [List.get_eq_getElem] at hg
  by_cases he : eventos[i.val].sources.isEmpty
  · rw [List.isEmpty_iff] at he
    simp [hg, he]
  · rw [List.isEmpty_iff] at he
    simp [hg, he, marcarFuentes_length, marcarFuentes_source]
theorem obtenerMonitorBucle_exito (endpoint : Nat → RespuestaMonitor)
    (r : String × Option String) :
    ∀ (k n i : Nat), k < n →
      (∀ j, j < k → esperaExitosa (endpoint (i + j)) = none) →
      esperaExitosa (endpoint (i + k)) = some r →
      obtenerMonitorBucle endpoint n i = (Except.ok r, k + 1) := by
  intro k
  induction k with
  | zero =>
    intro n i hk _ hhit
    match n, hk with
    | m + 1, _ =>
      simp only [obtenerMonitorBucle]
      rw [show i + 0 = i from rfl] at hhit
      rw [hhit]
  | succ k ih =>
    intro n i hk hmiss hhit
    match n, hk with
    | m + 1, hk =>
      have h0 : esperaExitosa (endpoint i) = none := by
        simpa using hmiss 0 (Nat.succ_pos k)
      simp only [obtenerMonitorBucle, h0]
      have hrec : obtenerMonitorBucle endpoint m (i + 1) = (Except.ok r, k + 1) := by
        refine ih m (i + 1) (Nat.lt_of_succ_lt_succ hk) ?_ ?_
        · intro j hj
          have := hmiss (j + 1) (Nat.succ_lt_succ hj)
          simpa [Nat.add_assoc, Nat.add_comm 1 j] using this
        · simpa [Nat.add_assoc, Nat.add_comm 1 k] using hhit
      simp [hrec]

theorem obtenerMonitorBucle_fallo (endpoint : Nat → RespuestaMonitor) :
    ∀ (n i : Nat),
      (∀ j, j < n → esperaExitosa (endpoint (i + j)) = none) →
      obtenerMonitorBucle endpoint n i = (Except.error mensajeMonitor, n) := by
  intro n
  induction n with
  | zero => intro i _; rfl
  | succ n ih =>
    intro i hmiss
    have h0 : esperaExitosa (endpoint i) = none := by
      simpa using hmiss 0 (Nat.succ_pos n)
    have hrec : obtenerMonitorBucle endpoint n (i + 1) = (Except.error mensajeMonitor, n) := by
      refine ih (i + 1) ?_
      intro j hj
      have := hmiss (j + 1) (Nat.succ_lt_succ hj)
      simpa [Nat.add_assoc, Nat.add_comm 1 j] using this
    simp [obtenerMonitorBucle, h0, hrec]

/-- C3: the Readiness Poller returns the content id after exactly `k+1`
HTTP calls when the endpoint is non-ready on the first `k` calls
(`k < intentos`) and ready on call `k+1`, and fails with the readiness
timeout error after exactly `intentos` HTTP calls when no call ever
yields a valid content id. -/
theorem claim_C3 (endpoint : Nat → RespuestaMonitor) (intentos : Nat) :
    (∀ k r, k < intentos →
      (∀ j, j < k → esperaExitosa (endpoint j) = none) →
      esperaExitosa (endpoint k) = some r →
      obtener_monitor endpoint intentos = (Except.ok r, k + 1)) ∧
    ((∀ j, j < intentos → esperaExitosa (endpoint j) = none) →
      obtener_monitor endpoint intentos = (Except.error mensajeMonitor, intentos)) := by
  constructor
  · intro k r hk hmiss hhit
    exact obtenerMonitorBucle_exito endpoint r k intentos 0 hk
      (by simpa using hmiss) (by simpa using hhit)
  · intro hmiss
    exact obtenerMonitorBucle_fallo endpoint intentos 0 (by simpa using hmiss)

/-- Witness for C3: an endpoint that fails twice then reports `"X123"`
yields a success after three calls, and an endpoint that always returns a
500 status exhausts all four configured attempts. -/
theorem claim_C3_testigo :
    obtener_monitor
        (fun i => if i < 2 then RespuestaMonitor.excepcion
          else RespuestaMonitor.respuesta 200
            (some { content_id := some ("X123"), download_hash := some ("H") })) 10
      = (Except.ok (("X123"), some ("H")), 3) ∧
    obtener_monitor (fun _ => RespuestaMonitor.respuesta 500 none) 4
      = (Except.error mensajeMonitor, 4) :=
  ⟨(claim_C3 _ 10).1 2 (("X123"), some ("H")) (by decide)
      (by decide)
      (by decide),
    (claim_C3 _ 4).2 (by decide)⟩
theorem bucleBorrado_spec (fs : SistemaArchivos) (archivos : List Archivo) :
    (bucleBorrado fs archivos).1 = (bucleBorrado fs archivos).2.length ∧
    ∀ a ∈ (bucleBorrado fs archivos).2,
      a.esFichero = true ∧ pathSuffix a.nombre ∉ extensionesPermitidas ∧ a ∈ archivos := by
  induction archivos with
  | nil => exact ⟨rfl, by simp [bucleBorrado]⟩
  | cons a resto ih =>
    by_cases hf : a.esFichero = true ∧ pathSuffix a.nombre ∉ extensionesPermitidas
    · by_cases hb : fs.borraBien a.nombre = true
      · refine ⟨by simp [bucleBorrado, hf, hb, ih.1], ?_⟩
        intro b hb2
        simp only [bucleBorrado] at hb2
        simp [hf, hb] at hb2
        rcases hb2 with rfl | hb2
        · exact ⟨hf.1, hf.2, List.mem_cons_self _ _⟩
        · exact ⟨(ih.2 b hb2).1, (ih.2 b hb2).2.1, List.mem_cons_of_mem _ (ih.2 b hb2).2.2⟩
      · refine ⟨by simp [bucleBorrado, hf, hb, ih.1], ?_⟩
        intro b hb2
        simp only [bucleBorrado] at hb2
        simp [hf, hb] at hb2
        exact ⟨(ih.2 b hb2).1, (ih.2 b hb2).2.1, List.mem_cons_of_mem _ (ih.2 b hb2).2.2⟩
    · refine ⟨by simp [bucleBorrado, hf, ih.1], ?_⟩
      intro b hb2
      simp only [bucleBorrado] at hb2
      simp [hf] at hb2
      exact ⟨(ih.2 b hb2).1, (ih.2 b hb2).2.1, List.mem_cons_of_mem _ (ih.2 b hb2).2.2⟩

/-- C7: the volume cleanup is total (it returns a count, never a fault);
an unsupported platform or a missing volume directory deletes nothing;
the count equals the number of files actually deleted even when some
individual deletions fail; and every deleted entry is a regular file of
the listed directory whose suffix is outside `{.acelive, .sauth}`. -/
theorem claim_C7 (fs : SistemaArchivos) (vol : String) :
    (fs.plataforma ≠ ("Windows") ∧ fs.plataforma ≠ ("Linux") →
      limpiar_archivos_temporales fs vol = (0, [])) ∧
    (fs.existe (rutaBase fs.plataforma vol) = false →
      limpiar_archivos_temporales fs vol = (0, [])) ∧
    (limpiar_archivos_temporales fs vol).1 = (limpiar_archivos_temporales fs vol).2.length ∧
    ∀ a ∈ (limpiar_archivos_temporales fs vol).2,
      a.esFichero = true ∧ pathSuffix a.nombre ∉ extensionesPermitidas ∧
        a ∈ fs.lista (rutaBase fs.plataforma vol) := by
  refine ⟨?_, ?_, ?_, ?_⟩
  · intro h
    simp [limpiar_archivos_temporales, h.1, h.2]
  · intro h
    by_cases hw : fs.plataforma == ("Windows") || fs.plataforma == ("Linux")
    · simp [limpiar_archivos_temporales, hw, h]
    · simp [limpiar_archivos_temporales, hw]
  · by_cases hw : fs.plataforma == ("Windows") || fs.plataforma == ("Linux")
    · by_cases he : fs.existe (rutaBase fs.plataforma vol)
      · simpa [limpiar_archivos_temporales, hw, he] using
          (bucleBorrado_spec fs (fs.lista (rutaBase fs.plataforma vol))).1
      · simp [limpiar_archivos_temporales, hw, he]
    · simp [limpiar_archivos_temporales, hw]
  · intro a ha
    by_cases hw : fs.plataforma == ("Windows") || fs.plataforma == ("Linux")
    · by_cases he : fs.existe (rutaBase fs.plataforma vol)
      · rw [show limpiar_archivos_temporales fs vol
            = bucleBorrado fs (fs.lista (rutaBase fs.plataforma vol)) by
              simp [limpiar_archivos_temporales, hw, he]] at ha
        exact (bucleBorrado_spec fs _).2 a ha
      · rw [show limpiar_archivos_temporales fs vol = (0, []) by
              simp [limpiar_archivos_temporales, hw, he]] at ha
        simp at ha
    · rw [show limpiar_archivos_temporales fs vol = (0, []) by
            simp [limpiar_archivos_temporales, hw]] at ha
      simp at ha

/-- Filesystem used by the witness of C7: a Linux host whose volume
directory holds a protected state file, a deletable log whose unlink
succeeds, a deletable tmp file whose unlink fails, and a subdirectory. -/
def fsPrueba : SistemaArchivos :=
  { plataforma := "Linux",
    existe := fun p => p == ("/var/lib/docker/volumes/vol1/_data"),
    lista := fun _ =>
      [{ nombre := "estado.acelive", esFichero := true },
       { nombre := "motor.log", esFichero := true },
       { nombre := "caido.tmp", esFichero := true },
       { nombre := "subdir", esFichero := false }],
    borraBien := fun nombre => nombre != ("caido.tmp") }

/-- Filesystem used by the witness of C7 on an unsupported platform. -/
def fsPruebaOtra : SistemaArchivos :=
  { plataforma := "Darwin", existe := fun _ => true, lista := fun _ => [], borraBien := fun _ => true }

/-- Witness for C7 at concrete filesystems: the unsupported-platform case,
the missing-directory case, and the count/allow-list facts on a directory
where one deletion fails. -/
theorem claim_C7_testigo :
    limpiar_archivos_temporales fsPruebaOtra ("vol1") = (0, []) ∧
    limpiar_archivos_temporales fsPrueba ("ausente") = (0, []) ∧
    (limpiar_archivos_temporales fsPrueba ("vol1")).1
      = (limpiar_archivos_temporales fsPrueba ("vol1")).2.length ∧
    ∀ a ∈ (limpiar_archivos_temporales fsPrueba ("vol1")).2,
      a.esFichero = true ∧ pathSuffix a.nombre ∉ extensionesPermitidas ∧
        a ∈ fsPrueba.lista (rutaBase fsPrueba.plataforma ("vol1")) :=
  ⟨(claim_C7 fsPruebaOtra ("vol1")).1 (by decide),
   (claim_C7 fsPrueba ("ausente")).2.1 (by decide),
   (claim_C7 fsPrueba ("vol1")).2.2.1,
   (claim_C7 fsPrueba ("vol1")).2.2.2⟩
theorem find?_fuenteActiva_none {l : List Fuente} (h : ∀ f ∈ l, f.valid = false) :
    l.find? fuenteActiva = none := by
  rw [List.find?_eq_none]
  intro f hf
  simp [fuenteActiva, h f hf]

/-- C9: every sources entry built by the create and edit handlers is
`valid=false` with a nonempty (already stripped) URL, and consequently the
Command Builder rejects a configuration holding such a freshly written
sources list, whatever the other fields are. -/
theorem claim_C9 (fuentes : List String) :
    (∀ f ∈ fuentesFormulario fuentes, f.valid = false ∧ f.source ≠ "") ∧
    (∀ nombre titulo tracker host token content_id docker_active : String,
      ∀ puerto bitrate : Int,
      _construir_comando_docker
          { nombre := nombre, titulo := titulo, puerto := puerto, tracker := tracker,
            sources := fuentesFormulario fuentes, host := host, bitrate := bitrate,
            token := token, content_id := content_id, docker_active := docker_active }
        = Except.error mensajeSinFuente) := by
  have hval : ∀ f ∈ fuentesFormulario fuentes, f.valid = false ∧ f.source ≠ "" := by
    intro f hf
    simp only [fuentesFormulario, List.mem_map, List.mem_filter] at hf
    rcases hf with ⟨s, ⟨_, hs⟩, rfl⟩
    exact ⟨rfl, by simpa using hs⟩
  refine ⟨hval, ?_⟩
  intro nombre titulo tracker host token content_id docker_active puerto bitrate
  simp only [_construir_comando_docker]
  rw [find?_fuenteActiva_none (fun f hf => (hval f hf).1)]

/-- Witness for C9 at a concrete form input (a blank entry, a padded URL
and a plain URL). -/
theorem claim_C9_testigo :
    (∀ f ∈ fuentesFormulario [("  "), (" udp://a "), ("udp://b")],
      f.valid = false ∧ f.source ≠ "") ∧
    (∀ nombre titulo tracker host token content_id docker_active : String,
      ∀ puerto bitrate : Int,
      _construir_comando_docker
          { nombre := nombre, titulo := titulo, puerto := puerto, tracker := tracker,
            sources := fuentesFormulario [("  "), (" udp://a "), ("udp://b")], host := host,
            bitrate := bitrate, token := token, content_id := content_id,
            docker_active := docker_active }
        = Except.error mensajeSinFuente) :=
  claim_C9 [("  "), (" udp://a "), ("udp://b")]
theorem actualizarLista_none (config : EventoConfig) (eventos : List Evento)
    (h : ∀ e ∈ eventos, e.name ≠ config.nombre) :
    actualizarLista config eventos = none := by
  induction eventos with
  | nil => rfl
  | cons e resto ih =>
    have hne : e.name ≠ config.nombre := h e (List.mem_cons_self _ _)
    simp only [actualizarLista, if_neg hne]
    rw [ih (fun x hx => h x (List.mem_cons_of_mem _ hx))]
    rfl

theorem actualizarPrimero_id (p : Evento → Bool) (f : Evento → Evento) (eventos : List Evento)
    (h : ∀ e ∈ eventos, p e = false) :
    actualizarPrimero p f eventos = eventos := by
  induction eventos with
  | nil => rfl
  | cons e resto ih =>
    have hpe : p e = false := h e (List.mem_cons_self _ _)
    simp only [actualizarPrimero, hpe, Bool.false_eq_true, if_false]
    rw [ih (fun x hx => h x (List.mem_cons_of_mem _ hx))]

/-- C5 (amended): when the targeted event name is absent from the record
set, the full-record update `actualizar_evento` does fail with the store
error, but the orchestrator's persistence helpers `_actualizar_content_id`
and `_actualizar_docker_active` silently succeed and rewrite the record
set unchanged. -/
theorem claim_C5_enmendada :
    (∀ (eventos : List Evento) (config : EventoConfig),
      (∀ e ∈ eventos, e.name ≠ config.nombre) →
      actualizar_evento eventos config = Except.error ("Evento no encontrado para actualizar")) ∧
    (∀ (eventos : List Evento) (nombre content_id : String),
      (∀ e ∈ eventos, e.name ≠ nombre) →
      _actualizar_content_id eventos nombre content_id = Except.ok eventos) ∧
    (∀ (eventos : List Evento) (nombre : String) (active : Bool),
      (∀ e ∈ eventos, e.name ≠ nombre) →
      _actualizar_docker_active eventos nombre active = Except.ok eventos) := by
  refine ⟨?_, ?_, ?_⟩
  · intro eventos config h
    simp [actualizar_evento, actualizarLista_none config eventos h]
  · intro eventos nombre content_id h
    simp only [_actualizar_content_id]
    rw [actualizarPrimero_id _ _ _ (fun e he => by simp [h e he])]
  · intro eventos nombre active h
    simp only [_actualizar_docker_active]
    rw [actualizarPrimero_id _ _ _ (fun e he => by simp [h e he])]

/-- Record used by the C5 witness and counterexample. -/
def eventoPrueba : Evento :=
  { name := "evento1", title := "t", port := "8000", service_access_token := "tok",
    tracker := "tr", sources := [{ source := "udp://a", valid := false }], host := "1.2.3.4",
    bitrate := "1000", content_id := "", docker_active := "False" }

/-- Configuration used by the C5 witness, targeting an absent name. -/
def configPrueba : EventoConfig :=
  { nombre := "fantasma", titulo := "t", puerto := 8000, tracker := "tr", sources := [],
    host := "1.2.3.4", bitrate := 1000, token := "tok", content_id := "",
    docker_active := "False" }

/-- Witness for the amended C5 at a concrete one-record store and an
absent name. -/
theorem claim_C5_testigo :
    actualizar_evento [eventoPrueba] configPrueba
      = Except.error ("Evento no encontrado para actualizar") ∧
    _actualizar_content_id [eventoPrueba] ("fantasma") ("X123") = Except.ok [eventoPrueba] ∧
    _actualizar_docker_active [eventoPrueba] ("fantasma") true = Except.ok [eventoPrueba] :=
  ⟨claim_C5_enmendada.1 [eventoPrueba] configPrueba (by decide),
   claim_C5_enmendada.2.1 [eventoPrueba] ("fantasma") ("X123") (by decide),
   claim_C5_enmendada.2.2 [eventoPrueba] ("fantasma") true (by decide)⟩

/-- Counterexample to C5 as stated: `_actualizar_content_id` targeting a
name that no record carries returns successfully (with the store
unchanged) instead of failing with a store error. -/
theorem contraejemplo_C5 :
    ([eventoPrueba].all (fun e => e.name != ("fantasma"))) = true ∧
    _actualizar_content_id [eventoPrueba] ("fantasma") ("X123") = Except.ok [eventoPrueba] := by
  constructor
  · decide
  · rfl
theorem cuerpoArranque_forma (env : Entorno) (config : EventoConfig) :
    (∃ e, cuerpoArranque env config = Except.error e) ∨
    (∃ content_id, cuerpoArranque env config
        = Except.ok (mensajeExito config.nombre content_id)) := by
  simp only [cuerpoArranque, bind, Except.bind]
  cases env.verificar with
  | error e1 => exact Or.inl ⟨e1, rfl⟩
  | ok u1 =>
    dsimp only
    cases _construir_comando_docker config with
    | error e2 => exact Or.inl ⟨e2, rfl⟩
    | ok cmd =>
      dsimp only
      cases env.ejecutar cmd with
      | error e3 => exact Or.inl ⟨e3, rfl⟩
      | ok u3 =>
        dsimp only
        cases env.resolverContenedor with
        | error e4 => exact Or.inl ⟨e4, rfl⟩
        | ok cid =>
          dsimp only
          cases (obtener_monitor env.monitor 10).1 with
          | error e5 => exact Or.inl ⟨e5, rfl⟩
          | ok info =>
            dsimp only
            cases env.guardarContentId info.1 with
            | error e6 => exact Or.inl ⟨e6, rfl⟩
            | ok u6 =>
              dsimp only
              cases env.marcarActivo with
              | error e7 => exact Or.inl ⟨e7, rfl⟩
              | ok u7 => exact Or.inr ⟨info.1, rfl⟩

/-- C4: the start sequence is total and converts every internal failure
into data: whatever the oracles for reconciliation, command execution,
container lookup, monitor polling and persistence do, and whatever the
configuration is, `iniciar_docker_evento` returns either the
validation-failure message, the success message with some content id, or
the descriptive top-level failure message wrapping the step's error — a
failure never escapes as a fault. -/
theorem claim_C4 (env : Entorno) (config : EventoConfig) :
    (iniciar_docker_evento env config = mensajeValidacion config.validar ∧
      config.validar ≠ []) ∨
    (∃ content_id, iniciar_docker_evento env config = mensajeExito config.nombre content_id) ∨
    (∃ e, iniciar_docker_evento env config = mensajeFallo config.nombre e) := by
  by_cases hv : config.validar.isEmpty
  · rcases cuerpoArranque_forma env config with ⟨e, he⟩ | ⟨content_id, hc⟩
    · exact Or.inr (Or.inr ⟨e, by simp [iniciar_docker_evento, hv, he]⟩)
    · exact Or.inr (Or.inl ⟨content_id, by simp [iniciar_docker_evento, hv, hc]⟩)
  · refine Or.inl ⟨by simp [iniciar_docker_evento, hv], ?_⟩
    simpa [List.isEmpty_iff] using hv
theorem mem_ite_singleton {α : Type} {c : Prop} [Decidable c] (m x : α) :
    (m ∈ if c then [x] else []) ↔ (c ∧ m = x) := by
  split_ifs with h <;> simp [h]

theorem validar_mem_nombre (config : EventoConfig) :
    msgNombre ∈ config.validar ↔
      (config.nombre = "" ∨ coincideNombre config.nombre = false) := by
  have d1 : msgNombre ≠ msgPuerto := by decide
  have d2 : msgNombre ≠ msgHost := by decide
  have d3 : msgNombre ≠ msgBitrate := by decide
  have d4 : msgNombre ≠ msgTitulo := by decide
  have d5 : msgNombre ≠ msgFuentes := by decide
  simp [EventoConfig.validar, mem_ite_singleton, d1, d2, d3, d4, d5]

theorem validar_mem_puerto (config : EventoConfig) :
    msgPuerto ∈ config.validar ↔ ¬(1024 ≤ config.puerto ∧ config.puerto ≤ 65535) := by
  have d1 : msgPuerto ≠ msgNombre := by decide
  have d2 : msgPuerto ≠ msgHost := by decide
  have d3 : msgPuerto ≠ msgBitrate := by decide
  have d4 : msgPuerto ≠ msgTitulo := by decide
  have d5 : msgPuerto ≠ msgFuentes := by decide
  simp [EventoConfig.validar, mem_ite_singleton, d1, d2, d3, d4, d5]

theorem validar_mem_host (config : EventoConfig) :
    msgHost ∈ config.validar ↔
      (_es_ip_valida config.host = false ∧ _es_dominio_valido config.host = false) := by
  have d1 : msgHost ≠ msgNombre := by decide
  have d2 : msgHost ≠ msgPuerto := by decide
  have d3 : msgHost ≠ msgBitrate := by decide
  have d4 : msgHost ≠ msgTitulo := by decide
  have d5 : msgHost ≠ msgFuentes := by decide
  simp [EventoConfig.validar, mem_ite_singleton, d1, d2, d3, d4, d5]

theorem validar_mem_bitrate (config : EventoConfig) :
    msgBitrate ∈ config.validar ↔ ¬(0 ≤ config.bitrate ∧ config.bitrate ≤ 10000000) := by
  have d1 : msgBitrate ≠ msgNombre := by decide
  have d2 : msgBitrate ≠ msgPuerto := by decide
  have d3 : msgBitrate ≠ msgHost := by decide
  have d4 : msgBitrate ≠ msgTitulo := by decide
  have d5 : msgBitrate ≠ msgFuentes := by decide
  simp [EventoConfig.validar, mem_ite_singleton, d1, d2, d3, d4, d5]

theorem validar_mem_titulo (config : EventoConfig) :
    msgTitulo ∈ config.validar ↔ recortar config.titulo = "" := by
  have d1 : msgTitulo ≠ msgNombre := by decide
  have d2 : msgTitulo ≠ msgPuerto := by decide
  have d3 : msgTitulo ≠ msgHost := by decide
  have d4 : msgTitulo ≠ msgBitrate := by decide
  have d5 : msgTitulo ≠ msgFuentes := by decide
  simp [EventoConfig.validar, mem_ite_singleton, d1, d2, d3, d4, d5]

theorem validar_mem_fuentes (config : EventoConfig) :
    msgFuentes ∈ config.validar ↔
      (config.sources = [] ∨ config.sources.all (fun s => recortar s.source == "") = true) := by
  have d1 : msgFuentes ≠ msgNombre := by decide
  have d2 : msgFuentes ≠ msgPuerto := by decide
  have d3 : msgFuentes ≠ msgHost := by decide
  have d4 : msgFuentes ≠ msgBitrate := by decide
  have d5 : msgFuentes ≠ msgTitulo := by decide
  simp [EventoConfig.validar, mem_ite_singleton, d1, d2, d3, d4, d5]

/-- C8: a configuration whose port lies outside `[1024, 65535]` always
collects the port violation, and each of the other rules (name, host,
bitrate, title, nonempty source) is still evaluated independently: its
message appears exactly when its own condition fails, regardless of the
port failure. -/
theorem claim_C8 (config : EventoConfig)
    (hp : ¬(1024 ≤ config.puerto ∧ config.puerto ≤ 65535)) :
    msgPuerto ∈ config.validar ∧
    (msgNombre ∈ config.validar ↔
      (config.nombre = "" ∨ coincideNombre config.nombre = false)) ∧
    (msgHost ∈ config.validar ↔
      (_es_ip_valida config.host = false ∧ _es_dominio_valido config.host = false)) ∧
    (msgBitrate ∈ config.validar ↔ ¬(0 ≤ config.bitrate ∧ config.bitrate ≤ 10000000)) ∧
    (msgTitulo ∈ config.validar ↔ recortar config.titulo = "") ∧
    (msgFuentes ∈ config.validar ↔
      (config.sources = [] ∨ config.sources.all (fun s => recortar s.source == "") = true)) :=
  ⟨(validar_mem_puerto config).mpr hp, validar_mem_nombre config, validar_mem_host config,
    validar_mem_bitrate config, validar_mem_titulo config, validar_mem_fuentes config⟩

/-- Configuration used by the witness of C8: port 80 is out of range while
the name and bitrate rules fail too and the host, title and source rules
pass. -/
def configPruebaC8 : EventoConfig :=
  { nombre := "mal nombre", titulo := "Final", puerto := 80, tracker := "tr",
    sources := [{ source := "udp://a", valid := false }], host := "example.com",
    bitrate := -5, token := "tok", content_id := "", docker_active := "False" }

/-- Witness for C8 at a concrete out-of-range-port configuration. -/
theorem claim_C8_testigo :
    ¬(1024 ≤ configPruebaC8.puerto ∧ configPruebaC8.puerto ≤ 65535) ∧
    (msgPuerto ∈ configPruebaC8.validar ∧
      (msgNombre ∈ configPruebaC8.validar ↔
        (configPruebaC8.nombre = "" ∨ coincideNombre configPruebaC8.nombre = false)) ∧
      (msgHost ∈ configPruebaC8.validar ↔
        (_es_ip_valida configPruebaC8.host = false ∧
          _es_dominio_valido configPruebaC8.host = false)) ∧
      (msgBitrate ∈ configPruebaC8.validar ↔
        ¬(0 ≤ configPruebaC8.bitrate ∧ configPruebaC8.bitrate ≤ 10000000)) ∧
      (msgTitulo ∈ configPruebaC8.validar ↔ recortar configPruebaC8.titulo = "") ∧
      (msgFuentes ∈ configPruebaC8.validar ↔
        (configPruebaC8.sources = [] ∨
          configPruebaC8.sources.all (fun s => recortar s.source == "") = true))) :=
  ⟨by decide, claim_C8 configPruebaC8 (by decide)⟩
/-- Number of occurrences of a token in an argument list. -/
def cuenta (x : String) : List String → Nat
  | [] => 0
  | y :: r => (if y = x then 1 else 0) + cuenta x r

set_option maxHeartbeats 1600000 in
theorem comandoDocker_cuenta_source (config : EventoConfig) (src : String)
    (hn : config.nombre ≠ ("--source")) (ht : config.titulo ≠ ("--source"))
    (htr : config.tracker ≠ ("--source")) (htk : config.token ≠ ("--source"))
    (hh : config.host ≠ ("--source")) (hs : src ≠ ("--source"))
    (hp : toString config.puerto ≠ ("--source")) (hb : toString config.bitrate ≠ ("--source"))
    (hv : ("acestreamengine_") ++ config.nombre ++ (":/data") ≠ ("--source"))
    (htc : tokenTcp config.puerto ≠ ("--source")) (htu : tokenUdp config.puerto ≠ ("--source")) :
    cuenta ("--source") (comandoDocker config src) = 1 := by
  simp [comandoDocker, cuenta, hn, ht, htr, htk, hh, hs, hp, hb, hv, htc, htu]

set_option maxHeartbeats 1600000 in
theorem comandoDocker_cuenta_p (config : EventoConfig) (src : String)
    (hn : config.nombre ≠ ("-p")) (ht : config.titulo ≠ ("-p"))
    (htr : config.tracker ≠ ("-p")) (htk : config.token ≠ ("-p"))
    (hh : config.host ≠ ("-p")) (hs : src ≠ ("-p"))
    (hp : toString config.puerto ≠ ("-p")) (hb : toString config.bitrate ≠ ("-p"))
    (hv : ("acestreamengine_") ++ config.nombre ++ (":/data") ≠ ("-p"))
    (htc : tokenTcp config.puerto ≠ ("-p")) (htu : tokenUdp config.puerto ≠ ("-p")) :
    cuenta ("-p") (comandoDocker config src) = 2 := by
  simp [comandoDocker, cuenta, hn, ht, htr, htk, hh, hs, hp, hb, hv, htc, htu]

set_option maxHeartbeats 800000 in
theorem comandoDocker_trozo_source (config : EventoConfig) (src : String) :
    ∃ l1 l2, comandoDocker config src = l1 ++ [("--source"), src] ++ l2 :=
  ⟨[("docker"), ("run"), ("-d"), ("--restart"), ("unless-stopped"),
    ("--name"), config.nombre, ("-p"), tokenTcp config.puerto, ("-p"),
    tokenUdp config.puerto, ("-v"), ("acestreamengine_") ++ config.nombre ++ (":/data"),
    ("lob666/acestreamengine"), ("--port"), toString config.puerto,
    ("--tracker"), config.tracker, ("--stream-source"), ("--name"), config.nombre,
    ("--title"), config.titulo, ("--publish-dir"), ("/data"), ("--cache-dir"), ("/data"),
    ("--skip-internal-tracker"), ("--quality"), ("HD"), ("--category"), ("amateur"),
    ("--service-access-token"), config.token, ("--service-remote-access"),
    ("--log-debug"), ("1"), ("--max-peers"), ("6"), ("--max-upload-slots"), ("6"),
    ("--source-read-timeout"), ("15"), ("--source-reconnect-interval"), ("1"),
    ("--host"), config.host],
   [("--bitrate"), toString config.bitrate], by simp [comandoDocker]⟩

set_option maxHeartbeats 800000 in
theorem comandoDocker_trozo_p (config : EventoConfig) (src : String) :
    ∃ l1 l2, comandoDocker config src
      = l1 ++ [("-p"), tokenTcp config.puerto, ("-p"), tokenUdp config.puerto] ++ l2 :=
  ⟨[("docker"), ("run"), ("-d"), ("--restart"), ("unless-stopped"),
    ("--name"), config.nombre],
   [("-v"), ("acestreamengine_") ++ config.nombre ++ (":/data"),
    ("lob666/acestreamengine"), ("--port"), toString config.puerto,
    ("--tracker"), config.tracker, ("--stream-source"), ("--name"), config.nombre,
    ("--title"), config.titulo, ("--publish-dir"), ("/data"), ("--cache-dir"), ("/data"),
    ("--skip-internal-tracker"), ("--quality"), ("HD"), ("--category"), ("amateur"),
    ("--service-access-token"), config.token, ("--service-remote-access"),
    ("--log-debug"), ("1"), ("--max-peers"), ("6"), ("--max-upload-slots"), ("6"),
    ("--source-read-timeout"), ("15"), ("--source-reconnect-interval"), ("1"),
    ("--host"), config.host, ("--source"), src,
    ("--bitrate"), toString config.bitrate], by simp [comandoDocker]⟩

/-- Absence of token collisions between the configuration's pass-through
strings and the flag tokens `--source` and `-p`, under which the emitted
argument list contains those flags exactly as often as the builder writes
them. -/
def sinColisiones (config : EventoConfig) (src : String) : Bool :=
  [config.nombre, config.titulo, config.tracker, config.token, config.host, src,
   toString config.puerto, toString config.bitrate,
   ("acestreamengine_") ++ config.nombre ++ (":/data"),
   tokenTcp config.puerto, tokenUdp config.puerto].all
    (fun s => s != ("--source") && s != ("-p"))

/-- C2 (amended): the builder fails whenever no entry is `valid=true`; and
whenever the first `valid=true` entry has a nonempty URL (and the textual
fields do not collide with the flag tokens), it emits the command with
exactly one `--source` flag immediately followed by that URL, and exactly
two port mappings `-p <port>:<port>/tcp` and `-p <port>:<port>/udp`. -/
theorem claim_C2_enmendada :
    (∀ config : EventoConfig, config.sources.find? fuenteActiva = none →
      _construir_comando_docker config = Except.error mensajeSinFuente) ∧
    (∀ (config : EventoConfig) (f : Fuente),
      config.sources.find? fuenteActiva = some f →
      f.source ≠ "" →
      sinColisiones config f.source = true →
      _construir_comando_docker config = Except.ok (comandoDocker config f.source) ∧
      cuenta ("--source") (comandoDocker config f.source) = 1 ∧
      cuenta ("-p") (comandoDocker config f.source) = 2 ∧
      (∃ l1 l2, comandoDocker config f.source = l1 ++ [("--source"), f.source] ++ l2) ∧
      (∃ l1 l2, comandoDocker config f.source
        = l1 ++ [("-p"), tokenTcp config.puerto, ("-p"), tokenUdp config.puerto] ++ l2)) := by
  constructor
  · intro config h
    simp [_construir_comando_docker, h]
  · intro config f hf hne hcol
    simp only [sinColisiones, List.all_cons, List.all_nil, Bool.and_eq_true, bne_iff_ne,
      and_true] at hcol
    obtain ⟨⟨hn1, hn2⟩, ⟨ht1, ht2⟩, ⟨htr1, htr2⟩, ⟨htk1, htk2⟩, ⟨hh1, hh2⟩, ⟨hs1, hs2⟩,
      ⟨hp1, hp2⟩, ⟨hb1, hb2⟩, ⟨hv1, hv2⟩, ⟨htc1, htc2⟩, ⟨htu1, htu2⟩⟩ := hcol
    exact ⟨by simp [_construir_comando_docker, hf, hne],
      comandoDocker_cuenta_source config f.source hn1 ht1 htr1 htk1 hh1 hs1 hp1 hb1 hv1 htc1 htu1,
      comandoDocker_cuenta_p config f.source hn2 ht2 htr2 htk2 hh2 hs2 hp2 hb2 hv2 htc2 htu2,
      comandoDocker_trozo_source config f.source,
      comandoDocker_trozo_p config f.source⟩
/-- Configuration used by the C2 witness, with one valid source. -/
def configPruebaC2 : EventoConfig :=
  { nombre := "demo", titulo := "Final", puerto := 8000, tracker := "tr",
    sources := [{ source := "udp://x", valid := true }], host := "1.2.3.4",
    bitrate := 697587, token := "tok", content_id := "", docker_active := "False" }

/-- Configuration used by the C2 witness, with no valid source. -/
def configPruebaC2sin : EventoConfig :=
  { nombre := "demo", titulo := "Final", puerto := 8000, tracker := "tr",
    sources := [{ source := "udp://a", valid := false }], host := "1.2.3.4",
    bitrate := 697587, token := "tok", content_id := "", docker_active := "False" }

/-- Witness for the amended C2 at concrete configurations. -/
theorem claim_C2_testigo :
    _construir_comando_docker configPruebaC2sin = Except.error mensajeSinFuente ∧
    (_construir_comando_docker configPruebaC2
        = Except.ok (comandoDocker configPruebaC2 ("udp://x")) ∧
      cuenta ("--source") (comandoDocker configPruebaC2 ("udp://x")) = 1 ∧
      cuenta ("-p") (comandoDocker configPruebaC2 ("udp://x")) = 2 ∧
      (∃ l1 l2, comandoDocker configPruebaC2 ("udp://x")
        = l1 ++ [("--source"), ("udp://x")] ++ l2) ∧
      (∃ l1 l2, comandoDocker configPruebaC2 ("udp://x")
        = l1 ++ [("-p"), tokenTcp configPruebaC2.puerto, ("-p"),
            tokenUdp configPruebaC2.puerto] ++ l2)) :=
  ⟨claim_C2_enmendada.1 configPruebaC2sin rfl,
   claim_C2_enmendada.2 configPruebaC2 { source := "udp://x", valid := true } rfl
     (by decide) (by decide)⟩

/-- Configuration whose only source entry is `valid=true` with an empty
URL. -/
def configC2mala : EventoConfig :=
  { nombre := "demo", titulo := "Final", puerto := 8000, tracker := "tr",
    sources := [{ source := "", valid := true }], host := "1.2.3.4",
    bitrate := 697587, token := "tok", content_id := "", docker_active := "False" }

/-- Counterexample to C2 as stated: this configuration has a `valid=true`
entry, yet the builder refuses to emit a command, because the Python guard
`if not valid_source` also treats the selected empty URL as missing. -/
theorem contraejemplo_C2 :
    (configC2mala.sources.any fuenteActiva) = true ∧
    _construir_comando_docker configC2mala = Except.error mensajeSinFuente :=
  ⟨rfl, rfl⟩
theorem valHex_digitoHex (n : Nat) (h : n < 16) : valHex (digitoHex n) = some n := by
  interval_cases n <;> rfl

theorem leerHex4_hex4 (n : Nat) (h : n < 65536) (r : List Char) :
    leerHex4 (hex4 n ++ r) = some (n, r) := by
  have h1 : valHex (digitoHex (n / 4096 % 16)) = some (n / 4096 % 16) :=
    valHex_digitoHex _ (Nat.mod_lt _ (by norm_num))
  have h2 : valHex (digitoHex (n / 256 % 16)) = some (n / 256 % 16) :=
    valHex_digitoHex _ (Nat.mod_lt _ (by norm_num))
  have h3 : valHex (digitoHex (n / 16 % 16)) = some (n / 16 % 16) :=
    valHex_digitoHex _ (Nat.mod_lt _ (by norm_num))
  have h4 : valHex (digitoHex (n % 16)) = some (n % 16) :=
    valHex_digitoHex _ (Nat.mod_lt _ (by norm_num))
  simp only [hex4, List.cons_append, List.nil_append, leerHex4, h1, h2, h3, h4]
  refine congrArg some (Prod.ext ?_ rfl)
  simp only
  omega

theorem char_valido (c : Char) : c.toNat < 55296 ∨ (57344 ≤ c.toNat ∧ c.toNat < 1114112) := by
  have h := c.valid
  simp only [UInt32.isValidChar, Nat.isValidChar] at h
  exact h
theorem leerEscapeU_bmp (n : Nat) (h : n < 65536) (hcond : n < 55296 ∨ 57344 ≤ n)
    (r : List Char) : leerEscapeU (hex4 n ++ r) = some (Char.ofNat n, r) := by
  unfold leerEscapeU
  rw [leerHex4_hex4 n h]
  dsimp only
  rw [if_pos hcond]
theorem leerEscapeU_par (hi lo : Nat) (hhi1 : 55296 ≤ hi) (hhi2 : hi < 56320)
    (hlo1 : 56320 ≤ lo) (hlo2 : lo < 57344) (r : List Char) :
    leerEscapeU (hex4 hi ++ ('\\') :: ('u') :: (hex4 lo ++ r))
      = some (Char.ofNat (65536 + (hi - 55296) * 1024 + (lo - 56320)), r) := by
  have hhi : hi < 65536 := by omega
  have hlo : lo < 65536 := by omega
  have hcond1 : ¬(hi < 55296 ∨ 57344 ≤ hi) := by omega
  have hcond2 : hi < 56320 := hhi2
  have hcond3 : 56320 ≤ lo ∧ lo < 57344 := ⟨hlo1, hlo2⟩
  have hchar : ('\\' : Char) = '\\' ∧ ('u' : Char) = 'u' := ⟨rfl, rfl⟩
  simp only [leerEscapeU, leerHex4_hex4 _ hhi, if_neg hcond1, if_pos hcond2,
    if_pos hchar, leerHex4_hex4 _ hlo, if_pos hcond3, and_self, if_true]
theorem leerEscape_u (l : List Char) : leerEscape (('u') :: l) = leerEscapeU l := rfl

theorem leerEscape_encChar (c : Char) :
    (encChar c = [c] ∧ c ≠ ('"') ∧ c ≠ ('\\')) ∨
    (∃ t, encChar c = ('\\') :: t ∧ ∀ r, leerEscape (t ++ r) = some (c, r)) := by
  by_cases h1 : c = ('"')
  · exact Or.inr ⟨[('"')], by simp [encChar, h1], fun r => by rw [h1]; rfl⟩
  by_cases h2 : c = ('\\')
  · exact Or.inr ⟨[('\\')], by simp [encChar, h1, h2], fun r => by rw [h2]; rfl⟩
  by_cases h3 : c = ('\n')
  · exact Or.inr ⟨[('n')], by simp [encChar, h1, h2, h3], fun r => by rw [h3]; rfl⟩
  by_cases h4 : c = ('\r')
  · exact Or.inr ⟨[('r')], by simp [encChar, h1, h2, h3, h4], fun r => by rw [h4]; rfl⟩
  by_cases h5 : c = ('\t')
  · exact Or.inr ⟨[('t')], by simp [encChar, h1, h2, h3, h4, h5], fun r => by rw [h5]; rfl⟩
  by_cases h6 : c = ('\x08')
  · exact Or.inr ⟨[('b')], by simp [encChar, h1, h2, h3, h4, h5, h6], fun r => by rw [h6]; rfl⟩
  by_cases h7 : c = ('\x0C')
  · exact Or.inr ⟨[('f')], by simp [encChar, h1, h2, h3, h4, h5, h6, h7],
      fun r => by rw [h7]; rfl⟩
  by_cases h8 : c.toNat < 32 ∨ 126 < c.toNat
  · by_cases h9 : c.toNat < 65536
    · refine Or.inr ⟨('u') :: hex4 c.toNat, ?_, ?_⟩
      · simp [encChar, h1, h2, h3, h4, h5, h6, h7, h8, h9]
      · intro r
        have hcond : c.toNat < 55296 ∨ 57344 ≤ c.toNat := by
          rcases char_valido c with h | h
          · exact Or.inl (by omega)
          · exact Or.inr (by omega)
        rw [List.cons_append, leerEscape_u, leerEscapeU_bmp c.toNat h9 hcond r,
          Char.ofNat_toNat]
    · obtain ⟨hi, lo, hhi1, hhi2, hlo1, hlo2, hid, hlod, hv⟩ :
          ∃ hi lo, 55296 ≤ hi ∧ hi < 56320 ∧ 56320 ≤ lo ∧ lo < 57344 ∧
            hi = 55296 + (c.toNat - 65536) / 1024 ∧
            lo = 56320 + (c.toNat - 65536) % 1024 ∧
            65536 + (hi - 55296) * 1024 + (lo - 56320) = c.toNat := by
        have hv2 : c.toNat < 1114112 := by
          rcases char_valido c with h | h <;> omega
        refine ⟨55296 + (c.toNat - 65536) / 1024, 56320 + (c.toNat - 65536) % 1024,
          by omega, ?_, by omega, ?_, rfl, rfl, ?_⟩
        · have : (c.toNat - 65536) / 1024 < 1024 := by omega
          omega
        · have : (c.toNat - 65536) % 1024 < 1024 := Nat.mod_lt _ (by norm_num)
          omega
        · have hd := Nat.div_add_mod (c.toNat - 65536) 1024
          have : (c.toNat - 65536) / 1024 < 1024 := by omega
          omega
      refine Or.inr ⟨('u') :: (hex4 hi ++ ('\\') :: ('u') :: hex4 lo), ?_, ?_⟩
      · rw [show encChar c = (('\\') :: ('u') :: hex4 (55296 + (c.toNat - 65536) / 1024)) ++
            (('\\') :: ('u') :: hex4 (56320 + (c.toNat - 65536) % 1024)) from by
          simp [encChar, h1, h2, h3, h4, h5, h6, h7, h8, h9]]
        rw [← hid, ← hlod]
        simp
      · intro r
        rw [List.cons_append, leerEscape_u, List.append_assoc, List.cons_append,
          List.cons_append, leerEscapeU_par hi lo hhi1 hhi2 hlo1 hlo2 r, hv,
          Char.ofNat_toNat]
  · refine Or.inl ⟨by simp [encChar, h1, h2, h3, h4, h5, h6, h7, h8], h1, h2⟩
theorem encChar_longitud (c : Char) : 1 ≤ (encChar c).length := by
  rcases leerEscape_encChar c with ⟨h, _, _⟩ | ⟨t, h, _⟩ <;> simp [h]

theorem encString_longitud (s : List Char) : s.length ≤ (encString s).length := by
  induction s with
  | nil => simp [encString]
  | cons c r ih =>
    have := encChar_longitud c
    simp only [encString, List.length_append, List.length_cons]
    omega

theorem leerCuerpoCadena_enc (s : List Char) :
    ∀ (fuel : Nat) (r : List Char), s.length < fuel →
      leerCuerpoCadena fuel (encString s ++ ('"') :: r) = some (s, r) := by
  induction s with
  | nil =>
    intro fuel r hf
    match fuel, hf with
    | f + 1, _ => rfl
  | cons c s' ih =>
    intro fuel r hf
    match fuel, hf with
    | f + 1, hf =>
      rcases leerEscape_encChar c with ⟨hp, hq1, hq2⟩ | ⟨t, hp, hq⟩
      · have : encString (c :: s') ++ ('"') :: r = c :: (encString s' ++ ('"') :: r) := by
          simp [encString, hp]
        rw [this]
        simp only [leerCuerpoCadena, if_neg hq1, if_neg hq2, ih f r (by simpa using hf)]
      · have : encString (c :: s') ++ ('"') :: r
            = ('\\') :: (t ++ (encString s' ++ ('"') :: r)) := by
          simp [encString, hp]
        rw [this]
        have hne : ('\\' : Char) ≠ ('"') := by decide
        simp only [leerCuerpoCadena, if_neg hne, eq_self_iff_true, if_true, hq,
          ih f r (by simpa using hf)]

theorem leerCadena_citar (s : String) (r : List Char) :
    leerCadena (citar s ++ r) = some (s.toList, r) := by
  have : citar s ++ r = ('"') :: (encString s.toList ++ ('"') :: r) := by
    simp [citar]
  rw [this]
  simp only [leerCadena]
  apply leerCuerpoCadena_enc
  have h1 := encString_longitud s.toList
  simp only [List.length_append, List.length_cons]
  omega

theorem quitarLiteral_pega (p : List Char) : ∀ l : List Char, quitarLiteral p (p ++ l) = some l := by
  induction p with
  | nil => intro l; rfl
  | cons c p' ih => intro l; simpa [quitarLiteral] using ih l
theorem leerBool_enc (b : Bool) (r : List Char) :
    leerBool ((if b then ("true").toList else ("false").toList) ++ r) = some (b, r) := by
  cases b
  · have h1 : quitarLiteral (("true").toList) (("false").toList ++ r) = none := rfl
    rw [if_neg (by decide : ¬(false = true))]
    simp only [leerBool, h1, quitarLiteral_pega]
  · rw [if_pos rfl]
    simp only [leerBool, quitarLiteral_pega]

theorem leerFuente_dumps (f : Fuente) (r : List Char) :
    leerFuente (dumpsFuente f ++ r) = some (f, r) := by
  have hfmt : dumpsFuente f ++ r
      = ("\x7b\"source\": ").toList ++ (citar f.source ++ ((", \"valid\": ").toList ++
          ((if f.valid then ("true").toList else ("false").toList) ++ (('\x7d') :: r)))) := by
    simp [dumpsFuente, List.append_assoc]
  rw [hfmt]
  simp only [leerFuente, quitarLiteral_pega, leerCadena_citar, leerBool_enc]
  rfl

theorem dumpsResto_longitud (fs : List Fuente) : fs.length ≤ (dumpsResto fs).length := by
  induction fs with
  | nil => simp [dumpsResto]
  | cons f fs ih =>
    have h2 : ((", ").toList).length = 2 := rfl
    simp only [dumpsResto, List.length_append, h2, List.length_cons]
    omega

theorem leerFuentes_dumpsResto (fs : List Fuente) :
    ∀ (fuel : Nat) (r : List Char), fs.length < fuel →
      leerFuentes fuel (dumpsResto fs ++ (']') :: r) = some (fs, r) := by
  induction fs with
  | nil =>
    intro fuel r hf
    match fuel, hf with
    | f + 1, _ => rfl
  | cons f fs' ih =>
    intro fuel r hf
    match fuel, hf with
    | g + 1, hf =>
      have hfmt : dumpsResto (f :: fs') ++ (']') :: r
          = (',') :: (' ') :: (dumpsFuente f ++ (dumpsResto fs' ++ (']') :: r)) := by
        simp [dumpsResto, List.append_assoc]
      rw [hfmt]
      have hne : (',' : Char) ≠ (']') := by decide
      have hcoma : ((',') :: (' ') :: (dumpsFuente f ++ (dumpsResto fs' ++ (']') :: r)))
          = ((", ").toList ++ (dumpsFuente f ++ (dumpsResto fs' ++ (']') :: r))) := rfl
      simp only [leerFuentes, if_neg hne, hcoma, quitarLiteral_pega, leerFuente_dumps,
        ih g r (by simpa using hf)]
theorem loads_dumps_sources (l : List Fuente) :
    json_loads_sources (json_dumps_sources l) = some l := by
  cases l with
  | nil => rfl
  | cons f fs =>
    have hsplit : (json_dumps_sources (f :: fs)).data
        = ('[') :: (dumpsFuente f ++ (dumpsResto fs ++ [(']')])) := by
      simp [json_dumps_sources, dumpsSources, List.append_assoc]
    have hsplit2 : dumpsFuente f ++ (dumpsResto fs ++ [(']')])
        = ('\x7b') :: (("\"source\": ").toList ++ (citar f.source ++ ((", \"valid\": ").toList ++
            ((if f.valid then ("true").toList else ("false").toList) ++
              (('\x7d') :: (dumpsResto fs ++ [(']')])))))) := by
      simp [dumpsFuente, List.append_assoc]
    have hlen : fs.length < (dumpsResto fs ++ [(']')]).length + 1 := by
      have := dumpsResto_longitud fs
      simp only [List.length_append, List.length_cons, List.length_nil]
      omega
    simp only [json_loads_sources, hsplit, hsplit2]
    rw [if_pos trivial, if_neg (by decide : ¬(('\x7b') = (']')))]
    rw [← hsplit2, leerFuente_dumps f (dumpsResto fs ++ [(']')])]
    dsimp only
    rw [leerFuentes_dumpsResto fs ((dumpsResto fs ++ [(']')]).length + 1) [] hlen]
    rfl
theorem dumps_sources_no_vacio (l : List Fuente) : json_dumps_sources l ≠ "" := by
  intro h
  have hd := congrArg String.data h
  cases l with
  | nil => exact absurd hd (by simp [json_dumps_sources, dumpsSources])
  | cons f fs => exact absurd hd (by simp [json_dumps_sources, dumpsSources])

/-- C6: appending an `EventoConfig` to the store and reading the store
back yields the previous records plus one new record whose decoded
`sources` sequence is exactly the written one — the JSON encoding of the
sources column followed by its decoding is the identity. -/
theorem claim_C6 (filas : List Fila) (config : EventoConfig) :
    listar_eventos (agregar_evento filas config)
      = listar_eventos filas ++ [eventoDeFila (filaDe config)] ∧
    (eventoDeFila (filaDe config)).sources = config.sources := by
  constructor
  · simp [listar_eventos, agregar_evento]
  · simp [eventoDeFila, filaDe, dumps_sources_no_vacio config.sources,
      loads_dumps_sources config.sources]
